import Mathlib

/-!
# Verification of the dopamine-reserve simulation model

Shallow embedding of the simulation core of `src/Model/Model.tsx`
(in the variant that records `minuteSinceStart` / `daytime` on each
sample).  JavaScript numbers are modelled as exact rationals (`ℚ`);
the activity catalog key type `keyof typeof ACTIVITIES` is a closed
inductive type; fallible operations return `Option`.
-/

namespace Dopamine

/-- `const SimulationSpeed = 60`. -/
def SimulationSpeed : ℚ := 60

/-- `const MaxDataLength = 2 * 24 * 60`. -/
def MaxDataLength : Nat := 2 * 24 * 60

/-- `const DopamineReserveRefillPerMinuteInPercent = 0.1`. -/
def DopamineReserveRefillPerMinuteInPercent : ℚ := 0.1

/-- `const DopamineBaseTurnOverPerMinuteInPercent = 0.05`. -/
def DopamineBaseTurnOverPerMinuteInPercent : ℚ := 0.05

/-- `interface ActivityDefinition { label; duration; factor }`. -/
structure ActivityDefinition where
  label : String
  duration : ℚ
  factor : ℚ
deriving DecidableEq

/-- `type Activity = keyof typeof ACTIVITIES`: the eight keys of the
static catalog object. -/
inductive Activity where
  | sleep
  | work
  | play
  | amphetamine
  | chocolate
  | sex
  | excercise
  | smoke
deriving DecidableEq

/-- The static `ACTIVITIES` table, indexed by its (typed) keys. -/
def ACTIVITIES : Activity → ActivityDefinition
  | .sleep => ⟨"Sleep", 60 * 8, -0.75⟩
  | .work => ⟨"Work", 60 * 8, 1.5⟩
  | .play => ⟨"Play", 60 * 2, 2.0⟩
  | .amphetamine => ⟨"Take Amphetamine", 1, 10.0⟩
  | .chocolate => ⟨"Eat Chocolate", 5, 1.5⟩
  | .sex => ⟨"Sex", 30, 2.0⟩
  | .excercise => ⟨"Excercise", 30, 2.0⟩
  | .smoke => ⟨"Smoke", 5, 2.5⟩

/-- The JavaScript property name of each catalog entry. -/
def Activity.key : Activity → String
  | .sleep => "sleep"
  | .work => "work"
  | .play => "play"
  | .amphetamine => "amphetamine"
  | .chocolate => "chocolate"
  | .sex => "sex"
  | .excercise => "excercise"
  | .smoke => "smoke"

/-- The keys present in the static `ACTIVITIES` object. -/
def activityKeys : List String :=
  ["sleep", "work", "play", "amphetamine", "chocolate", "sex", "excercise", "smoke"]

/-- `ACTIVITIES[id]` for an arbitrary (untyped) string key: JavaScript
property lookup on the catalog object, `none` (`undefined`) when the key
is absent. -/
def ACTIVITIES_lookup (id : String) : Option ActivityDefinition :=
  if id = "sleep" then some (ACTIVITIES .sleep)
  else if id = "work" then some (ACTIVITIES .work)
  else if id = "play" then some (ACTIVITIES .play)
  else if id = "amphetamine" then some (ACTIVITIES .amphetamine)
  else if id = "chocolate" then some (ACTIVITIES .chocolate)
  else if id = "sex" then some (ACTIVITIES .sex)
  else if id = "excercise" then some (ACTIVITIES .excercise)
  else if id = "smoke" then some (ACTIVITIES .smoke)
  else none

/-- `dopamineTurnover(activity, t)`: `baseline * ACTIVITIES[activity].factor`
(the `t` argument is unused in the source, per its TODO). -/
def dopamineTurnover (activity : Activity) (_t : ℚ) : ℚ :=
  let baseline := DopamineBaseTurnOverPerMinuteInPercent
  let factor := (ACTIVITIES activity).factor
  baseline * factor

/-- `totalDopamineUse(activities, t)`: baseline plus
`activities.map(a => dopamineTurnover(a, 0)).reduce((a, b) => a + b, 0)`. -/
def totalDopamineUse (activities : List Activity) (_t : ℚ) : ℚ :=
  DopamineBaseTurnOverPerMinuteInPercent +
    (activities.map (fun activity => dopamineTurnover activity 0)).foldl (· + ·) 0

/-- `minuteSinceStartToDaytime`: format a minute count as `h:mm` within
a 24-hour cycle. -/
def minuteSinceStartToDaytime (minuteSinceStart : Nat) : String :=
  let minuteOfDay := minuteSinceStart % (24 * 60)
  let daytimeHour := minuteOfDay / 60
  let minuteOfDayInHour := minuteOfDay % 60
  toString daytimeHour ++ ":" ++
    (if minuteOfDayInHour < 10 then "0" else "") ++ toString minuteOfDayInHour

/-- `interface DataPoint` (the spec's `Sample`): `minuteSinceStart` is the
spec's `sequenceIndex`, `daytime` its `clockLabel`. -/
structure DataPoint where
  minuteSinceStart : Nat
  daytime : String
  dopamineLevel : ℚ
  reservePercent : ℚ
  activities : List Activity
deriving DecidableEq

/-- `initialData`: `MaxDataLength` synthetic baseline samples. -/
def initialData : List DataPoint :=
  (List.range MaxDataLength).map fun i =>
    { minuteSinceStart := i
      daytime := minuteSinceStartToDaytime i
      dopamineLevel := DopamineBaseTurnOverPerMinuteInPercent
      reservePercent := 50
      activities := [] }

/-- The component state of `Model()`: the `pool`, `data` and
`activities` `useState` cells. -/
structure ModelState where
  pool : ℚ
  data : List DataPoint
  activities : List Activity
deriving DecidableEq

/-- The buffer step of the tick callback: append the new sample, then
`newData.shift()` (drop the oldest) when the length exceeds
`2 * 24 * 60`. -/
def appendSample (data : List DataPoint) (p : DataPoint) : List DataPoint :=
  let newData := data ++ [p]
  if newData.length > 2 * 24 * 60 then newData.tail else newData

/-- The pool update of the tick callback:
`Math.max(0, Math.min(100, pool + (refill - totalDopamineUse(activities, 0))))`. -/
def tickPoolUpdate (activities : List Activity) (pool : ℚ) : ℚ :=
  let dopamineNeed := totalDopamineUse activities 0
  let dopamineDiff := DopamineReserveRefillPerMinuteInPercent - dopamineNeed
  max 0 (min 100 (pool + dopamineDiff))

/-- One execution of the `setInterval` callback.  `none` models the
crash of `data[data.length - 1]` on an empty buffer (unreachable in
practice). -/
def tick (s : ModelState) : Option ModelState :=
  match s.data.getLast? with
  | none => none
  | some last =>
    let newPool := tickPoolUpdate s.activities s.pool
    let minuteSinceStart := last.minuteSinceStart + 1
    let newDataPoint : DataPoint :=
      { minuteSinceStart := minuteSinceStart
        daytime := minuteSinceStartToDaytime minuteSinceStart
        dopamineLevel := totalDopamineUse s.activities 0
        reservePercent := newPool
        activities := s.activities }
    some { pool := newPool
           data := appendSample s.data newDataPoint
           activities := s.activities }

/-- `onActivityToggle(activity, value)`: append on turn-on
(`[...activities, activity]`), filter out on turn-off. -/
def onActivityToggle (activities : List Activity) (activity : Activity)
    (value : Bool) : List Activity :=
  if value then activities ++ [activity]
  else activities.filter fun a => a ≠ activity

/-- The initial component state: `useState(50)`, `useState(initialData)`,
`useState([])`. -/
def initialState : ModelState :=
  { pool := 50, data := initialData, activities := [] }

/-- States reachable from the initial render by timer ticks and user /
auto-timeout toggles. -/
inductive Reachable : ModelState → Prop where
  | init : Reachable initialState
  | step {s s' : ModelState} : Reachable s → tick s = some s' → Reachable s'
  | toggle {s : ModelState} (activity : Activity) (value : Bool) :
      Reachable s →
      Reachable { s with activities := onActivityToggle s.activities activity value }

/-- A one-sample buffer state used to exercise the tick concretely. -/
def demoPoint : DataPoint :=
  { minuteSinceStart := 0
    daytime := minuteSinceStartToDaytime 0
    dopamineLevel := 0.05
    reservePercent := 50
    activities := [] }

/-- A small concrete component state used to exercise the tick. -/
def demoState : ModelState :=
  { pool := 50, data := [demoPoint], activities := [] }

/-- The sample produced by ticking `demoState`. -/
def demoPoint' : DataPoint :=
  { minuteSinceStart := demoPoint.minuteSinceStart + 1
    daytime := minuteSinceStartToDaytime (demoPoint.minuteSinceStart + 1)
    dopamineLevel := totalDopamineUse [] 0
    reservePercent := tickPoolUpdate [] 50
    activities := [] }

/-- The state produced by ticking `demoState`. -/
def demoState' : ModelState :=
  { pool := tickPoolUpdate [] 50
    data := appendSample [demoPoint] demoPoint'
    activities := [] }

/-! Helper lemmas about the tick and the buffer step. -/

theorem MaxDataLength_eq : MaxDataLength = 2880 := by norm_num [MaxDataLength]

theorem tick_inv {s s' : ModelState} (ht : tick s = some s') :
    ∃ last, s.data.getLast? = some last ∧
      s' = { pool := tickPoolUpdate s.activities s.pool
             data := appendSample s.data
               { minuteSinceStart := last.minuteSinceStart + 1
                 daytime := minuteSinceStartToDaytime (last.minuteSinceStart + 1)
                 dopamineLevel := totalDopamineUse s.activities 0
                 reservePercent := tickPoolUpdate s.activities s.pool
                 activities := s.activities }
             activities := s.activities } := by
  unfold tick at ht
  cases hl : s.data.getLast? with
  | none => rw [hl] at ht; exact Option.noConfusion ht
  | some last =>
    rw [hl] at ht
    exact ⟨last, rfl, (Option.some.inj ht).symm⟩

theorem appendSample_of_lt {data : List DataPoint} (p : DataPoint)
    (h : data.length < 2880) : appendSample data p = data ++ [p] := by
  show (if (data ++ [p]).length > 2 * 24 * 60 then (data ++ [p]).tail else data ++ [p])
      = data ++ [p]
  rw [if_neg]
  simp only [List.length_append, List.length_singleton]
  omega

theorem appendSample_at_capacity {data : List DataPoint} (p : DataPoint)
    (h : data.length = 2880) : appendSample data p = data.tail ++ [p] := by
  show (if (data ++ [p]).length > 2 * 24 * 60 then (data ++ [p]).tail else data ++ [p])
      = data.tail ++ [p]
  rw [if_pos (by simp only [List.length_append, List.length_singleton]; omega)]
  cases data with
  | nil => simp at h
  | cons x xs => rfl

theorem tick_demoState : tick demoState = some demoState' := rfl

theorem totalDopamineUse_nil (t : ℚ) : totalDopamineUse [] t = 0.05 := by
  norm_num [totalDopamineUse, DopamineBaseTurnOverPerMinuteInPercent]

theorem tickPoolUpdate_nil_50 : tickPoolUpdate [] 50 = 50.05 := by
  norm_num [tickPoolUpdate, totalDopamineUse, DopamineReserveRefillPerMinuteInPercent,
    DopamineBaseTurnOverPerMinuteInPercent, min_def, max_def]

/-! Claim theorems. -/

/-- C1: `totalDopamineUse` returns the baseline consumption rate plus the
sum, over all active members, of baseline × that activity's factor, and
the result does not depend on the order of the members (nor on the time
argument). -/
theorem totalDopamineUse_baseline_plus_sum :
    (∀ (activities : List Activity) (t : ℚ),
      totalDopamineUse activities t =
        DopamineBaseTurnOverPerMinuteInPercent +
          (activities.map fun a =>
            DopamineBaseTurnOverPerMinuteInPercent * (ACTIVITIES a).factor).sum) ∧
    ∀ (l l' : List Activity) (t t' : ℚ),
      l.Perm l' → totalDopamineUse l t = totalDopamineUse l' t' := by
  have key : ∀ (activities : List Activity) (t : ℚ),
      totalDopamineUse activities t =
        DopamineBaseTurnOverPerMinuteInPercent +
          (activities.map fun a =>
            DopamineBaseTurnOverPerMinuteInPercent * (ACTIVITIES a).factor).sum := by
    intro activities t
    unfold totalDopamineUse
    rw [← List.sum_eq_foldl]
    rfl
  refine ⟨key, fun l l' t t' h => ?_⟩
  rw [key l t, key l' t']
  exact congrArg (fun x => DopamineBaseTurnOverPerMinuteInPercent + x)
    (List.Perm.sum_eq (h.map _))

theorem totalDopamineUse_baseline_plus_sum_witness :
    totalDopamineUse [Activity.sleep, Activity.work] 0 =
      totalDopamineUse [Activity.work, Activity.sleep] 1 :=
  totalDopamineUse_baseline_plus_sum.2 [Activity.sleep, Activity.work]
    [Activity.work, Activity.sleep] 0 1
    (List.Perm.swap Activity.work Activity.sleep [])

/-- C2: for a prior reserve in [0, 100] and any active set, the reserve
produced by one simulation tick lies within [0, 100]. -/
theorem tick_reserve_in_unit_range {s s' : ModelState}
    (h0 : 0 ≤ s.pool) (h1 : s.pool ≤ 100) (ht : tick s = some s') :
    0 ≤ s'.pool ∧ s'.pool ≤ 100 := by
  obtain ⟨last, hl, rfl⟩ := tick_inv ht
  constructor
  · show (0 : ℚ) ≤ max 0 (min 100 (s.pool +
      (DopamineReserveRefillPerMinuteInPercent - totalDopamineUse s.activities 0)))
    exact le_max_left _ _
  · show max 0 (min 100 (s.pool +
      (DopamineReserveRefillPerMinuteInPercent - totalDopamineUse s.activities 0))) ≤ 100
    exact max_le (by norm_num) (min_le_left _ _)

theorem tick_reserve_in_unit_range_witness :
    0 ≤ demoState'.pool ∧ demoState'.pool ≤ 100 :=
  tick_reserve_in_unit_range (s := demoState)
    (by norm_num [demoState]) (by norm_num [demoState]) tick_demoState

/-- C5 counterexample: when the activity is already in the list, a turn-on
toggle does change the list (it appends a duplicate), so the operation is
not a no-op. -/
theorem onActivityToggle_on_not_noop :
    Activity.work ∈ [Activity.work] ∧
    onActivityToggle [Activity.work] Activity.work true ≠ [Activity.work] := by
  decide

/-- C5 amended: a turn-on toggle appends the activity unconditionally;
when it is already present the list gains a duplicate entry, and only the
set of distinct member ids is unchanged. -/
theorem onActivityToggle_on_appends (l : List Activity) (a : Activity) :
    onActivityToggle l a true = l ++ [a] ∧
    (a ∈ l → ∀ x : Activity, (x ∈ onActivityToggle l a true ↔ x ∈ l)) := by
  refine ⟨rfl, fun ha x => ?_⟩
  rw [show onActivityToggle l a true = l ++ [a] from rfl, List.mem_append,
    List.mem_singleton]
  constructor
  · rintro (h | rfl)
    · exact h
    · exact ha
  · exact fun h => Or.inl h

theorem onActivityToggle_on_appends_witness :
    onActivityToggle [Activity.work] Activity.work true =
      [Activity.work] ++ [Activity.work] ∧
    (Activity.work ∈ onActivityToggle [Activity.work] Activity.work true ↔
      Activity.work ∈ [Activity.work]) :=
  ⟨(onActivityToggle_on_appends [Activity.work] Activity.work).1,
   (onActivityToggle_on_appends [Activity.work] Activity.work).2
     (List.mem_singleton_self _) Activity.work⟩

/-- C6: from reserve 50 with an empty active set, one tick computes
consumption 0.05, delta 0.05, and produces reserve 50.05. -/
theorem scenario_idle_tick :
    totalDopamineUse [] 0 = 0.05 ∧
    DopamineReserveRefillPerMinuteInPercent - totalDopamineUse [] 0 = 0.05 ∧
    ∀ s s' : ModelState, s.pool = 50 → s.activities = [] → tick s = some s' →
      s'.pool = 50.05 := by
  refine ⟨totalDopamineUse_nil 0, ?_, ?_⟩
  · rw [totalDopamineUse_nil]
    norm_num [DopamineReserveRefillPerMinuteInPercent]
  · intro s s' hp ha ht
    obtain ⟨last, hl, rfl⟩ := tick_inv ht
    show tickPoolUpdate s.activities s.pool = 50.05
    rw [ha, hp, tickPoolUpdate_nil_50]

theorem scenario_idle_tick_witness : demoState'.pool = 50.05 :=
  scenario_idle_tick.2.2 demoState demoState' rfl rfl tick_demoState

/-- C10: a simulation tick never modifies the active activity list. -/
theorem tick_preserves_activities {s s' : ModelState} (ht : tick s = some s') :
    s'.activities = s.activities := by
  obtain ⟨last, hl, rfl⟩ := tick_inv ht
  rfl

theorem tick_preserves_activities_witness :
    demoState'.activities = demoState.activities :=
  tick_preserves_activities tick_demoState

theorem totalDopamineUse_amphetamine :
    totalDopamineUse [Activity.amphetamine] 0 = 0.55 := by
  norm_num [totalDopamineUse, dopamineTurnover, ACTIVITIES,
    DopamineBaseTurnOverPerMinuteInPercent]

theorem tickPoolUpdate_amphetamine_step (q : ℚ) (hq : 0 ≤ q) :
    0 ≤ tickPoolUpdate [Activity.amphetamine] q ∧
      tickPoolUpdate [Activity.amphetamine] q ≤ q := by
  constructor
  · show (0 : ℚ) ≤ max 0 (min 100 (q +
      (DopamineReserveRefillPerMinuteInPercent -
        totalDopamineUse [Activity.amphetamine] 0)))
    exact le_max_left _ _
  · show max 0 (min 100 (q +
      (DopamineReserveRefillPerMinuteInPercent -
        totalDopamineUse [Activity.amphetamine] 0))) ≤ q
    refine max_le hq (le_trans (min_le_right _ _) ?_)
    rw [totalDopamineUse_amphetamine]
    have hd : DopamineReserveRefillPerMinuteInPercent - (0.55 : ℚ) = -0.45 := by
      norm_num [DopamineReserveRefillPerMinuteInPercent]
    rw [hd]
    linarith

/-- C7: with active set {amphetamine}, consumption is 0.55 and the
per-tick delta is −0.45; under repeated ticks the reserve is
non-increasing and never goes below 0. -/
theorem scenario_amphetamine :
    totalDopamineUse [Activity.amphetamine] 0 = 0.55 ∧
    DopamineReserveRefillPerMinuteInPercent -
      totalDopamineUse [Activity.amphetamine] 0 = -0.45 ∧
    ∀ p : ℚ, 0 ≤ p → ∀ n : ℕ,
      0 ≤ (tickPoolUpdate [Activity.amphetamine])^[n] p ∧
      (tickPoolUpdate [Activity.amphetamine])^[n + 1] p ≤
        (tickPoolUpdate [Activity.amphetamine])^[n] p := by
  refine ⟨totalDopamineUse_amphetamine, ?_, ?_⟩
  · rw [totalDopamineUse_amphetamine]
    norm_num [DopamineReserveRefillPerMinuteInPercent]
  · intro p hp n
    have hnonneg : ∀ m : ℕ, 0 ≤ (tickPoolUpdate [Activity.amphetamine])^[m] p := by
      intro m
      induction m with
      | zero => simpa using hp
      | succ m ih =>
        rw [Function.iterate_succ_apply']
        exact (tickPoolUpdate_amphetamine_step _ ih).1
    refine ⟨hnonneg n, ?_⟩
    rw [Function.iterate_succ_apply']
    exact (tickPoolUpdate_amphetamine_step _ (hnonneg n)).2

theorem scenario_amphetamine_witness :
    0 ≤ (tickPoolUpdate [Activity.amphetamine])^[3] 50 ∧
    (tickPoolUpdate [Activity.amphetamine])^[3 + 1] 50 ≤
      (tickPoolUpdate [Activity.amphetamine])^[3] 50 :=
  scenario_amphetamine.2.2 50 (by norm_num) 3

/-- C8: looking up a definition succeeds with that id's entry for every
id in the static catalog, and fails (yields no definition) for every id
outside it. -/
theorem ACTIVITIES_lookup_spec :
    (∀ a : Activity, ACTIVITIES_lookup a.key = some (ACTIVITIES a)) ∧
    ∀ id : String, id ∉ activityKeys → ACTIVITIES_lookup id = none := by
  constructor
  · intro a
    cases a <;> rfl
  · intro id h
    simp only [activityKeys, List.mem_cons, List.not_mem_nil, or_false,
      not_or] at h
    obtain ⟨h1, h2, h3, h4, h5, h6, h7, h8⟩ := h
    simp [ACTIVITIES_lookup, h1, h2, h3, h4, h5, h6, h7, h8]

theorem ACTIVITIES_lookup_spec_witness :
    ACTIVITIES_lookup "cocaine" = none ∧
    ACTIVITIES_lookup "sleep" = some (ACTIVITIES Activity.sleep) :=
  ⟨ACTIVITIES_lookup_spec.2 "cocaine" (by decide),
   ACTIVITIES_lookup_spec.1 Activity.sleep⟩

/-- C3: appending one sample to a buffer of length at most 2880 keeps the
length at most 2880, and at capacity the append drops exactly the oldest
sample, retaining the rest in order. -/
theorem appendSample_capacity_bound (data : List DataPoint) (p : DataPoint)
    (h : data.length ≤ 2880) :
    (appendSample data p).length ≤ 2880 ∧
    (data.length = 2880 → appendSample data p = data.tail ++ [p]) := by
  constructor
  · by_cases hc : data.length = 2880
    · rw [appendSample_at_capacity p hc]
      simp only [List.length_append, List.length_tail, List.length_singleton, hc]
      omega
    · rw [appendSample_of_lt p (lt_of_le_of_ne h hc)]
      simp only [List.length_append, List.length_singleton]
      omega
  · exact appendSample_at_capacity p

theorem appendSample_capacity_bound_witness :
    (appendSample initialData demoPoint).length ≤ 2880 ∧
    (initialData.length = 2880 →
      appendSample initialData demoPoint = initialData.tail ++ [demoPoint]) :=
  appendSample_capacity_bound initialData demoPoint
    (by norm_num [initialData, MaxDataLength])

theorem tick_indices {s s' : ModelState} {k : ℕ}
    (hk : s.data.map DataPoint.minuteSinceStart = List.range' k 2880)
    (ht : tick s = some s') :
    s'.data.map DataPoint.minuteSinceStart = List.range' (k + 1) 2880 := by
  obtain ⟨last, hl, rfl⟩ := tick_inv ht
  have hlen : s.data.length = 2880 := by
    have h1 := congrArg List.length hk
    simpa [List.length_map, List.length_range'] using h1
  have hlast : last.minuteSinceStart = k + 2879 := by
    have h1 : (s.data.map DataPoint.minuteSinceStart).getLast? =
        some last.minuteSinceStart := by
      rw [List.getLast?_map, hl, Option.map_some']
    rw [hk] at h1
    have h2 : List.range' k 2880 = List.range' k 2879 ++ [k + 2879] := by
      simpa using @List.range'_concat 1 k 2879
    rw [h2, List.getLast?_concat] at h1
    exact (Option.some.inj h1).symm
  dsimp only
  rw [appendSample_at_capacity _ hlen, List.map_append, List.map_tail, hk]
  have h4 : List.range' k 2880 = k :: List.range' (k + 1) 2879 := by
    simpa using List.range'_succ k 2879 1
  rw [h4]
  show List.range' (k + 1) 2879 ++ [last.minuteSinceStart + 1] =
    List.range' (k + 1) 2880
  rw [hlast]
  have h7 : k + 2879 + 1 = k + 1 + 1 * 2879 := by omega
  rw [h7, ← List.range'_concat]

theorem initialData_indices :
    initialData.map DataPoint.minuteSinceStart = List.range' 0 2880 := by
  have h1 : initialData.map DataPoint.minuteSinceStart = List.range MaxDataLength := by
    unfold initialData
    rw [List.map_map]
    exact List.map_id' _
  rw [h1, MaxDataLength_eq, List.range_eq_range']

set_option maxRecDepth 8000 in
theorem initialState_data : initialState.data = initialData := rfl

theorem reachable_data_indices {s : ModelState} (h : Reachable s) :
    ∃ k, s.data.map DataPoint.minuteSinceStart = List.range' k 2880 := by
  induction h with
  | init => exact ⟨0, by rw [initialState_data]; exact initialData_indices⟩
  | step hr ht ih =>
    obtain ⟨k, hk⟩ := ih
    exact ⟨k + 1, tick_indices hk ht⟩
  | toggle a v hr ih =>
    exact ih

/-- C4: in every reachable state the buffer's sequence indices form a
strictly increasing contiguous window, and appending one sample to the
full buffer whose oldest index is k drops index k, keeps the length at
2880, and makes the newest index k + 2880. -/
theorem sequenceIndex_strictly_increasing (s : ModelState) (h : Reachable s) :
    ∃ k, s.data.map DataPoint.minuteSinceStart = List.range' k 2880 ∧
      (s.data.map DataPoint.minuteSinceStart).Pairwise (· < ·) ∧
      s.data.head?.map DataPoint.minuteSinceStart = some k ∧
      ∀ s', tick s = some s' →
        s'.data.length = 2880 ∧
        (∀ p ∈ s'.data, p.minuteSinceStart ≠ k) ∧
        s'.data.getLast?.map DataPoint.minuteSinceStart = some (k + 2880) ∧
        (s'.data.map DataPoint.minuteSinceStart).Pairwise (· < ·) := by
  obtain ⟨k, hk⟩ := reachable_data_indices h
  refine ⟨k, hk, ?_, ?_, ?_⟩
  · rw [hk]
    exact List.pairwise_lt_range' k 2880
  · rw [← List.head?_map, hk]
    have h4 : List.range' k 2880 = k :: List.range' (k + 1) 2879 := by
      simpa using List.range'_succ k 2879 1
    rw [h4]
    rfl
  · intro s' ht
    have hk' := tick_indices hk ht
    refine ⟨?_, ?_, ?_, ?_⟩
    · have h1 := congrArg List.length hk'
      simpa [List.length_map, List.length_range'] using h1
    · intro p hp
      have hmem : p.minuteSinceStart ∈ List.range' (k + 1) 2880 := by
        rw [← hk']
        exact List.mem_map_of_mem _ hp
      have h5 := (List.mem_range'_1.mp hmem).1
      omega
    · rw [← List.getLast?_map, hk']
      have h6 : List.range' (k + 1) 2880 =
          List.range' (k + 1) 2879 ++ [k + 1 + 2879] := by
        simpa using @List.range'_concat 1 (k + 1) 2879
      rw [h6, List.getLast?_concat]
    · rw [hk']
      exact List.pairwise_lt_range' (k + 1) 2880

theorem sequenceIndex_strictly_increasing_witness :
    ∃ k, initialState.data.map DataPoint.minuteSinceStart = List.range' k 2880 ∧
      (initialState.data.map DataPoint.minuteSinceStart).Pairwise (· < ·) ∧
      initialState.data.head?.map DataPoint.minuteSinceStart = some k ∧
      ∀ s', tick initialState = some s' →
        s'.data.length = 2880 ∧
        (∀ p ∈ s'.data, p.minuteSinceStart ≠ k) ∧
        s'.data.getLast?.map DataPoint.minuteSinceStart = some (k + 2880) ∧
        (s'.data.map DataPoint.minuteSinceStart).Pairwise (· < ·) :=
  sequenceIndex_strictly_increasing initialState Reachable.init

/-- C9: the rolling buffer is seeded with exactly 2880 baseline samples
(reserve 50, dopamine level 0.05, empty activity list) and has length
exactly 2880 in every reachable state. -/
theorem buffer_always_at_capacity :
    initialData.length = 2880 ∧
    (∀ p ∈ initialData, p.reservePercent = 50 ∧ p.dopamineLevel = 0.05 ∧
      p.activities = ([] : List Activity)) ∧
    ∀ s, Reachable s → s.data.length = 2880 := by
  refine ⟨?_, ?_, ?_⟩
  · norm_num [initialData, MaxDataLength]
  · intro p hp
    rw [initialData] at hp
    obtain ⟨i, hi, rfl⟩ := List.mem_map.mp hp
    exact ⟨rfl, rfl, rfl⟩
  · intro s hs
    obtain ⟨k, hk⟩ := reachable_data_indices hs
    have h1 := congrArg List.length hk
    simpa [List.length_map, List.length_range'] using h1

theorem buffer_always_at_capacity_witness :
    (({ minuteSinceStart := 0
        daytime := minuteSinceStartToDaytime 0
        dopamineLevel := DopamineBaseTurnOverPerMinuteInPercent
        reservePercent := 50
        activities := [] } : DataPoint).reservePercent = 50 ∧
      ({ minuteSinceStart := 0
         daytime := minuteSinceStartToDaytime 0
         dopamineLevel := DopamineBaseTurnOverPerMinuteInPercent
         reservePercent := 50
         activities := [] } : DataPoint).dopamineLevel = 0.05 ∧
      ({ minuteSinceStart := 0
         daytime := minuteSinceStartToDaytime 0
         dopamineLevel := DopamineBaseTurnOverPerMinuteInPercent
         reservePercent := 50
         activities := [] } : DataPoint).activities = ([] : List Activity)) ∧
    initialState.data.length = 2880 :=
  ⟨buffer_always_at_capacity.2.1 _
    (List.mem_map.mpr ⟨0, List.mem_range.mpr (by norm_num [MaxDataLength]), rfl⟩),
   buffer_always_at_capacity.2.2 initialState Reachable.init⟩

end Dopamine
